import Mathlib

/-
Verification of the CodeGuardian command-line utility.

The program reads a JSON file, extracts a question string, sends it once to a
remote chat-completion service, and prints the answer.  The embedding below
follows the source files line by line:

  src/main.py               : run, and the argument-count check of the
                              script entry point (modelled as main)
  src/agents/ai_agent.py    : CodeGuardianAgent.__init__ (modelled as
                              CodeGuardianAgent.init) and CodeGuardianAgent.ask
  src/utils/helpers.py      : load_json
  src/config/settings.py    : OPENAI_API_KEY is os.getenv with default empty

The file system, the JSON parser of the standard library and the remote
exchange are the program's external collaborators; they enter as explicit
parameters (a String to Option String map, a parse function, an exchange
function), and the run result records the exit status, standard output, the
log lines and the list of outbound requests, so that claims about exit codes
and about the number of network calls are statements about that record.
-/

namespace CodeGuardian

/-- Values produced by parsing JSON, as Python json.load returns them:
null, booleans, numbers, strings, arrays and objects.  An object is an
association list of key and value. -/
inductive Value where
  | null : Value
  | bool : Bool → Value
  | num : Int → Value
  | str : String → Value
  | arr : List Value → Value
  | obj : List (String × Value) → Value

/-- Python exceptions that the modelled code can raise.  The spec names
ConfigurationError for the ValueError of the constructor, ParseError for the
OSError or JSONDecodeError of load_json, and RemoteServiceError for the
RuntimeError that ask raises. -/
inductive PyExc where
  | valueError : String → PyExc
  | runtimeError : String → PyExc
  | attributeError : String → PyExc
  | indexError : String → PyExc
  | ioError : String → PyExc
  | jsonDecodeError : String → PyExc

/-- Failures that the OpenAI client library signals as OpenAIError: failed
authentication, rate limiting, a network failure, or a response the library
could not validate. -/
inductive OpenAIError where
  | authenticationError : String → OpenAIError
  | rateLimitError : String → OpenAIError
  | apiConnectionError : String → OpenAIError
  | invalidResponseError : String → OpenAIError

/-- The description str(e) of an OpenAIError. -/
def OpenAIError.msg : OpenAIError → String
  | .authenticationError s => s
  | .rateLimitError s => s
  | .apiConnectionError s => s
  | .invalidResponseError s => s

/-- One message of a chat conversation.  The content field is optional in the
client library. -/
structure ChatMessage where
  role : String
  content : Option String

/-- One completion choice of a remote response. -/
structure ChatChoice where
  message : ChatMessage

/-- A remote response: a list of completion choices. -/
structure ChatResponse where
  choices : List ChatChoice

/-- The request that chat.completions.create sends: a model identifier, the
conversation messages and the sampling temperature. -/
structure ChatRequest where
  model : String
  messages : List ChatMessage
  temperature : Rat

/-- Python str.strip() with no argument: remove whitespace from both ends of
the string. -/
def pyStrip (s : String) : String :=
  ⟨((s.data.dropWhile Char.isWhitespace).reverse.dropWhile Char.isWhitespace).reverse⟩

/-- Python truthiness of an optional string: None and the empty string are
falsy. -/
def strTruthy : Option String → Bool
  | none => false
  | some s => s ≠ ""

/-- Python a or b on optional strings: a when a is truthy, b otherwise. -/
def pyOr (a b : Option String) : Option String :=
  if strTruthy a then a else b

/-- The agent client.  The source stores the resolved api_key and an OpenAI
client handle; the handle holds no state the claims touch, so only the key
is kept. -/
structure CodeGuardianAgent where
  api_key : String

/-- CodeGuardianAgent.__init__ from src/agents/ai_agent.py: resolve the key
as the argument or else the OPENAI_API_KEY environment variable, and raise
ValueError when the result is falsy. -/
def CodeGuardianAgent.init (api_key : Option String) (envKey : Option String) :
    Except PyExc CodeGuardianAgent :=
  let k := pyOr api_key envKey
  if strTruthy k then .ok ⟨k.getD ""⟩
  else .error (.valueError "Missing OpenAI API key.")

/-- The request ask builds: the single user message carrying the prompt. -/
def askRequest (model : String) (prompt : String) (temperature : Rat) : ChatRequest :=
  ⟨model, [⟨"user", some prompt⟩], temperature⟩

/-- CodeGuardianAgent.ask from src/agents/ai_agent.py.  It sends one request
built by askRequest, returns the trimmed content of the first choice, and
converts an OpenAIError raised by the exchange into a RuntimeError.  An empty
choice list raises IndexError at choices[0], and a missing content raises
AttributeError at .strip(); neither is caught, exactly as in the source.  The
second component lists the requests sent, in order.  The source defaults are
model gpt-4 and temperature 0.5. -/
def CodeGuardianAgent.ask (_a : CodeGuardianAgent)
    (exchange : ChatRequest → Except OpenAIError ChatResponse)
    (prompt : String) (model : String) (temperature : Rat) :
    Except PyExc String × List ChatRequest :=
  let req := askRequest model prompt temperature
  match exchange req with
  | .error e => (.error (.runtimeError ("OpenAI API error: " ++ e.msg)), [req])
  | .ok response =>
    match response.choices with
    | [] => (.error (.indexError "list index out of range"), [req])
    | c :: _ =>
      match c.message.content with
      | none => (.error (.attributeError "NoneType has no attribute strip"), [req])
      | some s => (.ok (pyStrip s), [req])

/-- load_json from src/utils/helpers.py: open the file and parse its text.
A missing or unreadable file (content none) raises an OSError from open;
otherwise the parse function of the json library runs on the text and its
outcome is returned unchanged — nothing is caught locally. -/
def load_json (jsonParse : String → Except PyExc Value)
    (content : Option String) : Except PyExc Value :=
  match content with
  | none => .error (.ioError "No such file or directory")
  | some s => jsonParse s

/-- Python data.get(key, default): defined on dictionaries only; on any other
value the attribute lookup raises AttributeError. -/
def Value.get (v : Value) (key : String) (dflt : Value) : Except PyExc Value :=
  match v with
  | .obj kvs =>
    match kvs.lookup key with
    | some x => .ok x
    | none => .ok dflt
  | _ => .error (.attributeError "object has no attribute get")

/-- Python v.strip(): defined on strings only, trimming surrounding
whitespace; on any other value the attribute lookup raises AttributeError. -/
def Value.strip : Value → Except PyExc String
  | .str s => .ok (pyStrip s)
  | _ => .error (.attributeError "object has no attribute strip")

/-- Observable outcome of one run: the process exit status, everything
printed to standard output, the log lines in order, and the outbound
requests in order. -/
structure RunResult where
  exitCode : Nat
  stdout : String
  logs : List String
  requests : List ChatRequest

/-- run from src/main.py, line by line.  data is loaded, the question is
data.get with default empty string then .strip(); an empty question logs an
error and exits 1 through sys.exit (SystemExit is not an Exception, so the
handler does not catch it); otherwise the agent is built with the settings
key os.getenv with default empty string, ask runs, and the answer is printed
under the header.  Every Exception reaching the handler logs the failure and
exits 1.  env is the OPENAI_API_KEY environment variable, read both by
src/config/settings.py and inside the agent constructor. -/
def run (jsonParse : String → Except PyExc Value)
    (exchange : ChatRequest → Except OpenAIError ChatResponse)
    (env : Option String) (content : Option String) : RunResult :=
  match load_json jsonParse content with
  | .error _ => ⟨1, "", ["Execution failed:"], []⟩
  | .ok data =>
    match data.get "question" (.str "") with
    | .error _ => ⟨1, "", ["Execution failed:"], []⟩
    | .ok qv =>
      match qv.strip with
      | .error _ => ⟨1, "", ["Execution failed:"], []⟩
      | .ok question =>
        if question = "" then
          ⟨1, "", ["No question provided in input file."], []⟩
        else
          match CodeGuardianAgent.init (some (env.getD "")) env with
          | .error _ => ⟨1, "", ["Execution failed:"], []⟩
          | .ok agent =>
            let r := agent.ask exchange question "gpt-4" (1/2)
            match r.1 with
            | .error _ =>
              ⟨1, "", ["Sending question to AI agent: " ++ question,
                       "Execution failed:"], r.2⟩
            | .ok answer =>
              ⟨0, "\n=== AI Response ===\n\n" ++ answer ++ "\n",
               ["Sending question to AI agent: " ++ question], r.2⟩

/-- The usage line printed on a wrong argument count. -/
def usageLine : String := "Usage: python main.py <path_to_input.json>\n"

/-- The script entry point of src/main.py: with an argument vector of any
length other than two (the program name and one path), print the usage line
and exit 1; otherwise read the named file from the file system fs and run.
The second component lists the file paths read. -/
def main (jsonParse : String → Except PyExc Value)
    (exchange : ChatRequest → Except OpenAIError ChatResponse)
    (env : Option String) (fs : String → Option String)
    (argv : List String) : RunResult × List String :=
  if argv.length ≠ 2 then
    (⟨1, usageLine, [], []⟩, [])
  else
    let path := argv.getD 1 ""
    (run jsonParse exchange env (fs path), [path])

/-- An optional string is falsy exactly when its value, defaulting to the
empty string, is empty. -/
theorem strTruthy_eq_false_iff (o : Option String) :
    strTruthy o = false ↔ o.getD "" = "" := by
  cases o <;> simp [strTruthy]

/-- The constructor raises its ValueError exactly when both the argument and
the environment variable are absent or empty. -/
theorem init_error_iff (a b : Option String) :
    CodeGuardianAgent.init a b = .error (.valueError "Missing OpenAI API key.") ↔
      (a.getD "" = "" ∧ b.getD "" = "") := by
  cases a with
  | none =>
    cases b with
    | none => simp [CodeGuardianAgent.init, pyOr, strTruthy]
    | some s =>
      by_cases hs : s = "" <;>
        simp [CodeGuardianAgent.init, pyOr, strTruthy, hs]
  | some s =>
    by_cases hs : s = "" <;>
      cases b with
      | none => simp [CodeGuardianAgent.init, pyOr, strTruthy, hs]
      | some t =>
        by_cases ht : t = "" <;>
          simp [CodeGuardianAgent.init, pyOr, strTruthy, hs, ht]

/-- With an absent or empty OPENAI_API_KEY, run makes no outbound request on
any path. -/
theorem run_requests_nil_of_empty_key
    (jsonParse : String → Except PyExc Value)
    (exchange : ChatRequest → Except OpenAIError ChatResponse)
    (env content : Option String) (hkey : env.getD "" = "") :
    (run jsonParse exchange env content).requests = [] := by
  have hinit : CodeGuardianAgent.init (some (env.getD "")) env =
      .error (.valueError "Missing OpenAI API key.") :=
    (init_error_iff _ _).mpr ⟨by simp [hkey], hkey⟩
  unfold run
  split
  · rfl
  · split
    · rfl
    · split
      · rfl
      · split
        · rfl
        · rw [hinit]

/-- ask always sends exactly the one request built by askRequest, whatever
the exchange answers. -/
theorem ask_requests_eq (a : CodeGuardianAgent)
    (exchange : ChatRequest → Except OpenAIError ChatResponse)
    (prompt model : String) (t : Rat) :
    (a.ask exchange prompt model t).2 = [askRequest model prompt t] := by
  unfold CodeGuardianAgent.ask
  dsimp only
  split
  · rfl
  · split
    · rfl
    · split
      · rfl
      · rfl

/-- With a truthy environment credential, the constructor succeeds with that
credential. -/
theorem init_ok_of_env_key (env : Option String) (hkey : env.getD "" ≠ "") :
    CodeGuardianAgent.init (some (env.getD "")) env = .ok ⟨env.getD ""⟩ := by
  simp [CodeGuardianAgent.init, pyOr, strTruthy, hkey]

/-- C1: for a parsed JSON object whose question field is missing, empty, or
whitespace-only, run exits with status 1 (the sys.exit inside the validation
branch, not caught by the Exception handler) and sends no request to the
remote exchange. -/
theorem blank_question_exits_without_network
    (jsonParse : String → Except PyExc Value)
    (exchange : ChatRequest → Except OpenAIError ChatResponse)
    (env content : Option String) (kvs : List (String × Value))
    (hload : load_json jsonParse content = .ok (.obj kvs))
    (hq : kvs.lookup "question" = none ∨
          ∃ s, kvs.lookup "question" = some (.str s) ∧ pyStrip s = "") :
    (run jsonParse exchange env content).exitCode = 1 ∧
    (run jsonParse exchange env content).requests = [] := by
  rcases hq with hq | ⟨s, hq, hs⟩
  · simp [run, hload, Value.get, hq, Value.strip, show pyStrip "" = "" from rfl]
  · simp [run, hload, Value.get, hq, Value.strip, hs]

/-- Witness for blank_question_exits_without_network on a whitespace-only
question. -/
theorem blank_question_exits_without_network_witness :
    (run (fun _ => .ok (.obj [("question", .str "   ")]))
        (fun _ => .ok ⟨[]⟩) (some "k") (some "x")).exitCode = 1 ∧
    (run (fun _ => .ok (.obj [("question", .str "   ")]))
        (fun _ => .ok ⟨[]⟩) (some "k") (some "x")).requests = [] :=
  blank_question_exits_without_network
    (fun _ => .ok (.obj [("question", .str "   ")]))
    (fun _ => .ok ⟨[]⟩) (some "k") (some "x")
    [("question", .str "   ")] rfl (Or.inr ⟨"   ", rfl, rfl⟩)

/-- C2: for a parsed object carrying a question that is non-empty after
stripping, and with a credential available, run invokes the remote exchange
exactly once, and the single request carries the conversation consisting of
exactly one user message whose content is exactly the stripped question — no
system prompt and no history. -/
theorem valid_question_sends_one_request
    (jsonParse : String → Except PyExc Value)
    (exchange : ChatRequest → Except OpenAIError ChatResponse)
    (env content : Option String) (kvs : List (String × Value)) (s : String)
    (hload : load_json jsonParse content = .ok (.obj kvs))
    (hq : kvs.lookup "question" = some (.str s))
    (hne : pyStrip s ≠ "")
    (hkey : env.getD "" ≠ "") :
    (run jsonParse exchange env content).requests =
      [⟨"gpt-4", [⟨"user", some (pyStrip s)⟩], 1/2⟩] := by
  have hinit := init_ok_of_env_key env hkey
  simp only [run, hload, Value.get, hq, Value.strip, if_neg hne, hinit]
  cases hr : ((⟨env.getD ""⟩ : CodeGuardianAgent).ask exchange (pyStrip s)
      "gpt-4" (1/2)).1 with
  | error e => simp [hr, ask_requests_eq, askRequest]
  | ok answer => simp [hr, ask_requests_eq, askRequest]

/-- Witness for valid_question_sends_one_request: one request with the single
user message holding the stripped question. -/
theorem valid_question_sends_one_request_witness :
    (run (fun _ => .ok (.obj [("question", .str " hi ")]))
        (fun _ => .error (.apiConnectionError "down"))
        (some "k") (some "x")).requests =
      [⟨"gpt-4", [⟨"user", some "hi"⟩], 1/2⟩] :=
  valid_question_sends_one_request
    (fun _ => .ok (.obj [("question", .str " hi ")]))
    (fun _ => .error (.apiConnectionError "down"))
    (some "k") (some "x") [("question", .str " hi ")] " hi "
    rfl rfl (by decide) (by decide)

/-- C3: when the remote exchange fails with any OpenAIError — failed
authentication, rate limit, network failure, or a response the client
library rejects as malformed — ask catches it and returns exactly the
RuntimeError (the generic RemoteServiceError of the spec) carrying the
description of the cause; no other exception results from such failures. -/
theorem ask_wraps_remote_failure (a : CodeGuardianAgent)
    (exchange : ChatRequest → Except OpenAIError ChatResponse)
    (prompt model : String) (t : Rat) (e : OpenAIError)
    (hx : exchange (askRequest model prompt t) = .error e) :
    (a.ask exchange prompt model t).1 =
      .error (.runtimeError ("OpenAI API error: " ++ e.msg)) := by
  simp [CodeGuardianAgent.ask, hx]

/-- Witness for ask_wraps_remote_failure at a concrete rate-limit failure. -/
theorem ask_wraps_remote_failure_witness :
    ((CodeGuardianAgent.mk "k").ask
        (fun _ => .error (.rateLimitError "too many requests"))
        "hi" "gpt-4" (1/2)).1 =
      .error (.runtimeError ("OpenAI API error: " ++
        OpenAIError.msg (.rateLimitError "too many requests"))) :=
  ask_wraps_remote_failure (.mk "k")
    (fun _ => .error (.rateLimitError "too many requests"))
    "hi" "gpt-4" (1/2) (.rateLimitError "too many requests") rfl

/-- C4: on a fully successful run — input loads as an object, the question
strips to a non-empty string, a credential is present, the exchange answers
with a first choice carrying content — the process exits with status 0 and
standard output is exactly the header line between blank lines followed by
the stripped response text and a final newline: the header and the response,
the response on a subsequent line, and nothing else. -/
theorem successful_run_exit_zero_and_output
    (jsonParse : String → Except PyExc Value)
    (exchange : ChatRequest → Except OpenAIError ChatResponse)
    (env content : Option String) (kvs : List (String × Value)) (s : String)
    (resp : ChatResponse) (c : ChatChoice) (rest : List ChatChoice)
    (ans : String)
    (hload : load_json jsonParse content = .ok (.obj kvs))
    (hq : kvs.lookup "question" = some (.str s))
    (hne : pyStrip s ≠ "")
    (hkey : env.getD "" ≠ "")
    (hx : exchange (askRequest "gpt-4" (pyStrip s) (1/2)) = .ok resp)
    (hc : resp.choices = c :: rest)
    (hans : c.message.content = some ans) :
    (run jsonParse exchange env content).exitCode = 0 ∧
    (run jsonParse exchange env content).stdout =
      "\n=== AI Response ===\n\n" ++ pyStrip ans ++ "\n" := by
  have hinit := init_ok_of_env_key env hkey
  simp only [askRequest, one_div] at hx
  simp [run, hload, Value.get, hq, Value.strip, if_neg hne, hinit,
    CodeGuardianAgent.ask, askRequest, hx, hc, hans]

/-- Witness for successful_run_exit_zero_and_output with the remote response
Hello, world. -/
theorem successful_run_exit_zero_and_output_witness :
    (run (fun _ => .ok (.obj [("question", .str "hi")]))
        (fun _ => .ok ⟨[⟨⟨"assistant", some "Hello, world."⟩⟩]⟩)
        (some "k") (some "x")).exitCode = 0 ∧
    (run (fun _ => .ok (.obj [("question", .str "hi")]))
        (fun _ => .ok ⟨[⟨⟨"assistant", some "Hello, world."⟩⟩]⟩)
        (some "k") (some "x")).stdout =
      "\n=== AI Response ===\n\nHello, world.\n" := by
  have h := successful_run_exit_zero_and_output
    (fun _ => .ok (.obj [("question", .str "hi")]))
    (fun _ => .ok ⟨[⟨⟨"assistant", some "Hello, world."⟩⟩]⟩)
    (some "k") (some "x") [("question", .str "hi")] "hi"
    ⟨[⟨⟨"assistant", some "Hello, world."⟩⟩]⟩
    ⟨⟨"assistant", some "Hello, world."⟩⟩ [] "Hello, world."
    rfl rfl (by decide) (by decide) rfl rfl rfl
  exact ⟨h.1, by rw [h.2]; decide⟩

/-- C9: two parsed JSON objects that agree on the question key — whatever
their other keys — give runs with identical observable behavior: the same
exit status, the same standard output, the same log lines and the same
outbound requests. -/
theorem other_keys_have_no_influence
    (jsonParse1 jsonParse2 : String → Except PyExc Value)
    (exchange : ChatRequest → Except OpenAIError ChatResponse)
    (env content1 content2 : Option String)
    (kvs1 kvs2 : List (String × Value))
    (h1 : load_json jsonParse1 content1 = .ok (.obj kvs1))
    (h2 : load_json jsonParse2 content2 = .ok (.obj kvs2))
    (hq : kvs1.lookup "question" = kvs2.lookup "question") :
    run jsonParse1 exchange env content1 = run jsonParse2 exchange env content2 := by
  unfold run
  rw [h1, h2]
  simp only [Value.get, hq]

/-- Witness for other_keys_have_no_influence: an input with an extra key and
one without behave identically. -/
theorem other_keys_have_no_influence_witness :
    run (fun _ => .ok (.obj [("question", .str "hi"), ("extra", .num 7)]))
        (fun _ => .ok ⟨[⟨⟨"assistant", some "yes"⟩⟩]⟩) (some "k") (some "a") =
    run (fun _ => .ok (.obj [("question", .str "hi")]))
        (fun _ => .ok ⟨[⟨⟨"assistant", some "yes"⟩⟩]⟩) (some "k") (some "b") :=
  other_keys_have_no_influence
    (fun _ => .ok (.obj [("question", .str "hi"), ("extra", .num 7)]))
    (fun _ => .ok (.obj [("question", .str "hi")]))
    (fun _ => .ok ⟨[⟨⟨"assistant", some "yes"⟩⟩]⟩)
    (some "k") (some "a") (some "b")
    [("question", .str "hi"), ("extra", .num 7)] [("question", .str "hi")]
    rfl rfl rfl

/-- C10: when the parsed document is not an object, or its question value is
not a string, the AttributeError raised at .get or .strip is caught by the
Exception handler of run: the process logs the failure and exits with status
1, and no request is sent. -/
theorem invalid_shape_exits_without_network
    (jsonParse : String → Except PyExc Value)
    (exchange : ChatRequest → Except OpenAIError ChatResponse)
    (env content : Option String) (data : Value)
    (hload : load_json jsonParse content = .ok data)
    (h : (∀ kvs, data ≠ .obj kvs) ∨
         (∃ kvs v, data = .obj kvs ∧ kvs.lookup "question" = some v ∧
           ∀ s, v ≠ .str s)) :
    (run jsonParse exchange env content).exitCode = 1 ∧
    (run jsonParse exchange env content).requests = [] ∧
    (run jsonParse exchange env content).logs = ["Execution failed:"] := by
  rcases h with h | ⟨kvs, v, rfl, hq, hv⟩
  · have hget : data.get "question" (.str "") =
        .error (.attributeError "object has no attribute get") := by
      cases data with
      | obj kvs => exact absurd rfl (h kvs)
      | null => rfl
      | bool b => rfl
      | num n => rfl
      | str s => rfl
      | arr xs => rfl
    simp [run, hload, hget]
  · have hstrip : v.strip =
        .error (.attributeError "object has no attribute strip") := by
      cases v with
      | str s => exact absurd rfl (hv s)
      | null => rfl
      | bool b => rfl
      | num n => rfl
      | arr xs => rfl
      | obj kvs => rfl
    simp [run, hload, Value.get, hq, hstrip]

/-- Witness for invalid_shape_exits_without_network on a document whose
top-level value is the number 5. -/
theorem invalid_shape_exits_without_network_witness :
    (run (fun _ => .ok (.num 5)) (fun _ => .ok ⟨[]⟩)
        (some "k") (some "5")).exitCode = 1 ∧
    (run (fun _ => .ok (.num 5)) (fun _ => .ok ⟨[]⟩)
        (some "k") (some "5")).requests = [] ∧
    (run (fun _ => .ok (.num 5)) (fun _ => .ok ⟨[]⟩)
        (some "k") (some "5")).logs = ["Execution failed:"] :=
  invalid_shape_exits_without_network (fun _ => .ok (.num 5))
    (fun _ => .ok ⟨[]⟩) (some "k") (some "5") (.num 5) rfl
    (Or.inl fun _ h => Value.noConfusion h)

/-- C5: construction of the agent client fails with the ValueError reading
Missing OpenAI API key (the ConfigurationError of the spec) exactly when
neither the explicit argument nor the environment variable supplies a
non-empty credential; and with the credential absent from the environment,
a run makes no network call at all. -/
theorem init_missing_credential_iff (api_key envKey : Option String) :
    (CodeGuardianAgent.init api_key envKey =
        .error (.valueError "Missing OpenAI API key.") ↔
      (api_key.getD "" = "" ∧ envKey.getD "" = "")) ∧
    (∀ (jsonParse : String → Except PyExc Value)
       (exchange : ChatRequest → Except OpenAIError ChatResponse)
       (content : Option String), envKey.getD "" = "" →
       (run jsonParse exchange envKey content).requests = []) :=
  ⟨init_error_iff api_key envKey,
   fun jsonParse exchange content hkey =>
     run_requests_nil_of_empty_key jsonParse exchange envKey content hkey⟩

/-- Witness for init_missing_credential_iff with both sources empty: the
constructor fails and the run sends nothing. -/
theorem init_missing_credential_iff_witness :
    CodeGuardianAgent.init (some "") none =
      .error (.valueError "Missing OpenAI API key.") ∧
    (run (fun _ => .ok (.obj [("question", .str "hi")]))
        (fun _ => .ok ⟨[⟨⟨"assistant", some "yes"⟩⟩]⟩)
        none (some "x")).requests = [] :=
  ⟨((init_missing_credential_iff (some "") none).1).mpr ⟨rfl, rfl⟩,
   (init_missing_credential_iff (some "") none).2
     (fun _ => .ok (.obj [("question", .str "hi")]))
     (fun _ => .ok ⟨[⟨⟨"assistant", some "yes"⟩⟩]⟩) (some "x") rfl⟩

/-- C6: on a successful exchange, ask returns exactly the content of the
first completion choice with surrounding whitespace trimmed; the remaining
choices and every other part of the response leave no trace in the result. -/
theorem ask_returns_trimmed_first_choice (a : CodeGuardianAgent)
    (exchange : ChatRequest → Except OpenAIError ChatResponse)
    (prompt model : String) (t : Rat) (resp : ChatResponse)
    (c : ChatChoice) (rest : List ChatChoice) (s : String)
    (hx : exchange (askRequest model prompt t) = .ok resp)
    (hc : resp.choices = c :: rest)
    (hs : c.message.content = some s) :
    (a.ask exchange prompt model t).1 = .ok (pyStrip s) := by
  simp [CodeGuardianAgent.ask, hx, hc, hs]

/-- Witness for ask_returns_trimmed_first_choice: a two-choice response whose
first content carries surrounding blanks. -/
theorem ask_returns_trimmed_first_choice_witness :
    ((CodeGuardianAgent.mk "k").ask
        (fun _ => .ok ⟨[⟨⟨"assistant", some "  An answer.  "⟩⟩,
                        ⟨⟨"assistant", some "other"⟩⟩]⟩)
        "hi" "gpt-4" (1/2)).1 = .ok "An answer." :=
  ask_returns_trimmed_first_choice (.mk "k")
    (fun _ => .ok ⟨[⟨⟨"assistant", some "  An answer.  "⟩⟩,
                    ⟨⟨"assistant", some "other"⟩⟩]⟩)
    "hi" "gpt-4" (1/2)
    ⟨[⟨⟨"assistant", some "  An answer.  "⟩⟩, ⟨⟨"assistant", some "other"⟩⟩]⟩
    ⟨⟨"assistant", some "  An answer.  "⟩⟩ [⟨⟨"assistant", some "other"⟩⟩]
    "  An answer.  " rfl rfl rfl

/-- C7: when load_json fails — the file is missing or unreadable, or its
text is not valid JSON — the error propagates to run, which exits with
status 1, logs the failure, and sends no request. -/
theorem load_failure_exits_logged_no_network
    (jsonParse : String → Except PyExc Value)
    (exchange : ChatRequest → Except OpenAIError ChatResponse)
    (env content : Option String) (e : PyExc)
    (hload : load_json jsonParse content = .error e) :
    (run jsonParse exchange env content).exitCode = 1 ∧
    (run jsonParse exchange env content).requests = [] ∧
    (run jsonParse exchange env content).logs = ["Execution failed:"] := by
  simp [run, hload]

/-- Witness for load_failure_exits_logged_no_network on a truncated JSON
document. -/
theorem load_failure_exits_logged_no_network_witness :
    (run (fun _ => .error (.jsonDecodeError "Expecting value"))
        (fun _ => .ok ⟨[]⟩) (some "k") (some "\x7b")).exitCode = 1 ∧
    (run (fun _ => .error (.jsonDecodeError "Expecting value"))
        (fun _ => .ok ⟨[]⟩) (some "k") (some "\x7b")).requests = [] ∧
    (run (fun _ => .error (.jsonDecodeError "Expecting value"))
        (fun _ => .ok ⟨[]⟩) (some "k") (some "\x7b")).logs =
      ["Execution failed:"] :=
  load_failure_exits_logged_no_network
    (fun _ => .error (.jsonDecodeError "Expecting value"))
    (fun _ => .ok ⟨[]⟩) (some "k") (some "\x7b")
    (.jsonDecodeError "Expecting value") rfl

/-- C8: invoked with any argument count other than one positional argument
after the program name, the entry point prints the usage line to standard
output, exits with status 1, reads no file and sends no request. -/
theorem wrong_arg_count_prints_usage
    (jsonParse : String → Except PyExc Value)
    (exchange : ChatRequest → Except OpenAIError ChatResponse)
    (env : Option String) (fs : String → Option String)
    (argv : List String) (h : argv.length ≠ 2) :
    main jsonParse exchange env fs argv = (⟨1, usageLine, [], []⟩, []) := by
  simp [main, h]

/-- Witness for wrong_arg_count_prints_usage with no positional argument. -/
theorem wrong_arg_count_prints_usage_witness :
    main (fun _ => .ok .null) (fun _ => .ok ⟨[]⟩) none (fun _ => none)
        ["main.py"] = (⟨1, usageLine, [], []⟩, []) :=
  wrong_arg_count_prints_usage (fun _ => .ok .null) (fun _ => .ok ⟨[]⟩)
    none (fun _ => none) ["main.py"] (by decide)

end CodeGuardian
